import Mathlib

/-!
Shallow embedding of the GStreamer SRT plugin (ext/srt): the server sink
(gstsrtserversink.c), the client source (gstsrtclientsrc.c) and the shared
reference-counted client session (gstsrt.c / gstsrt.h).  Pure state is modelled
explicitly; calls into libsrt and GLib are modelled by their observable events
and by boolean/value parameters standing for their outcomes.
-/

/-- GStreamer flow return values used by the SRT elements
(GST_FLOW_OK, GST_FLOW_EOS, GST_FLOW_ERROR). -/
inductive GstFlowReturn where
  | ok
  | eos
  | error
deriving DecidableEq

/-- Observable events of the server sink: lock operations on the private mutex,
libsrt calls, GLib signal emissions and resource releases, in program order. -/
inductive Ev where
  | lock
  | unlock
  | scheduleDispatch
  | sendmsg (client buffer : Nat) (ok : Bool)
  | mapError (buffer : Nat)
  | clientRemoved (client : Nat)
  | unrefClient (client : Nat)
  | clearQueue
  | clientAdded (client : Nat)
  | logWarning
  | closeSock (sock : Int)
  | epollRelease (pollId : Int)
  | loopQuit
  | threadJoin
  | sourceDestroy
  | contextUnref
deriving DecidableEq

/-- The fields of GstSRTServerSinkPrivate that the verified operations touch.
Clients are identified by their SRT socket descriptor; buffers by an id.
The Boolean fields record whether loop / thread / server_source / context
are non-NULL (g_clear_pointer sets them to NULL). -/
structure ServerState where
  sock : Int
  srt_poll_id : Int
  clients : List Nat
  queued_buffers : List Nat
  loopPresent : Bool
  threadPresent : Bool
  serverSourcePresent : Bool
  contextPresent : Bool
deriving DecidableEq

/-- gst_srt_server_sink_render (gstsrtserversink.c:422-444): under the mutex,
only when queued_buffers is NULL the buffer is appended and one idle dispatch
source is attached; otherwise the body is skipped (the buffer is neither
queued nor scheduled).  Always returns GST_FLOW_OK. -/
def gst_srt_server_sink_render (st : ServerState) (buffer : Nat) :
    ServerState × List Ev × GstFlowReturn :=
  if st.queued_buffers = [] then
    ({ st with queued_buffers := st.queued_buffers ++ [buffer] },
     [Ev.lock, Ev.scheduleDispatch, Ev.unlock], GstFlowReturn.ok)
  else
    (st, [Ev.lock, Ev.unlock], GstFlowReturn.ok)

/-- The inner while loop of srt_send_buffer (gstsrtserversink.c:396-409):
walk the cursor list, srt_sendmsg2 to each client; on SRT_ERROR the client is
removed from the registry (g_list_remove, first occurrence), the
client-removed signal is emitted and the client is unreffed.  The outcome of
srt_sendmsg2 is supplied by the sendOk oracle. -/
def sendToClients (sendOk : Nat → Nat → Bool) (b : Nat) :
    List Nat → List Nat → List Nat × List Ev
  | [], registry => (registry, [])
  | c :: rest, registry =>
    if sendOk c b then
      let r := sendToClients sendOk b rest registry
      (r.1, Ev.sendmsg c b true :: r.2)
    else
      let r := sendToClients sendOk b rest (registry.erase c)
      (r.1, Ev.sendmsg c b false :: Ev.clientRemoved c :: Ev.unrefClient c :: r.2)

/-- The outer for loop of srt_send_buffer (gstsrtserversink.c:377-412).
The local GList cursor over clients is read once before the loop and is fully
consumed by the first buffer whose map succeeds (the C code never resets it),
so later buffers see an empty cursor.  A failed gst_buffer_map logs an element
error and continues with the next buffer. -/
def sendQueuedBuffers (mapOk : Nat → Bool) (sendOk : Nat → Nat → Bool) :
    List Nat → List Nat → List Nat → List Nat × List Ev
  | [], _, registry => (registry, [])
  | b :: rest, cursor, registry =>
    if mapOk b then
      let r1 := sendToClients sendOk b cursor registry
      let r2 := sendQueuedBuffers mapOk sendOk rest [] r1.1
      (r2.1, r1.2 ++ r2.2)
    else
      let r2 := sendQueuedBuffers mapOk sendOk rest cursor registry
      (r2.1, Ev.mapError b :: r2.2)

/-- srt_send_buffer (gstsrtserversink.c:366-420): reads the buffer list and the
client cursor, takes the mutex, sends every queued buffer, frees the queue and
sets it to NULL, releases the mutex, and returns FALSE (one-shot idle source).
The mutex is released only after all sends. -/
def srt_send_buffer (mapOk : Nat → Bool) (sendOk : Nat → Nat → Bool)
    (st : ServerState) : ServerState × List Ev × Bool :=
  let r := sendQueuedBuffers mapOk sendOk st.queued_buffers st.clients st.clients
  ({ st with clients := r.1, queued_buffers := [] },
   Ev.lock :: (r.2 ++ [Ev.clearQueue, Ev.unlock]), false)

/-- Outcome of one iteration of the accept unit as observed by
idle_listen_callback: srt_epoll_wait timed out, failed with a non-timeout
error, or succeeded followed by srt_accept failing or succeeding. -/
inductive AcceptOutcome where
  | epollTimeout
  | epollError
  | acceptFail
  | acceptOk (sock : Nat)
deriving DecidableEq

/-- idle_listen_callback (gstsrtserversink.c:181-228).  The returned Bool is
the GSourceFunc return value: TRUE keeps the idle source attached (re-armed),
FALSE removes it.  A timeout keeps TRUE; a non-timeout epoll error or an
invalid accepted socket returns FALSE; a successful accept appends the client
and emits client-added. -/
def idle_listen_callback : AcceptOutcome → ServerState → ServerState × List Ev × Bool
  | AcceptOutcome.epollTimeout, st => (st, [], true)
  | AcceptOutcome.epollError, st => (st, [], false)
  | AcceptOutcome.acceptFail, st => (st, [Ev.logWarning], false)
  | AcceptOutcome.acceptOk s, st =>
      ({ st with clients := st.clients ++ [s] }, [Ev.clientAdded s], true)

/-- Address family as classified by the switch on g_inet_address_get_family. -/
inductive SocketFamily where
  | ipv4
  | ipv6
  | other
deriving DecidableEq

/-- Outcomes of the external calls made by gst_srt_server_sink_start, in the
order the code consults them. -/
structure ServerStartEnv where
  hostOk : Bool
  sockAddrOk : Bool
  socketOk : Bool
  epollOk : Bool
  family : SocketFamily
  bindOk : Bool
  listenOk : Bool
  threadOk : Bool
deriving DecidableEq

/-- gst_srt_server_sink_start (gstsrtserversink.c:241-364), reduced to its
return value and the cleanup events it performs.  Note the srt_epoll_create
failure branch (lines 288-295) warns and closes the socket but never sets ret
to FALSE, so it returns TRUE; and the thread-spawn failure branch sets ret to
FALSE without releasing the socket, poll id, context, source or loop. -/
def gst_srt_server_sink_start (env : ServerStartEnv) : Bool × List Ev :=
  if env.hostOk = false then (false, [])
  else if env.sockAddrOk = false then (false, [])
  else if env.socketOk = false then (false, [])
  else if env.epollOk = false then (true, [Ev.closeSock 0])
  else
    match env.family with
    | SocketFamily.other => (false, [Ev.closeSock 0])
    | _ =>
      if env.bindOk = false then (false, [Ev.closeSock 0])
      else if env.listenOk = false then (false, [Ev.closeSock 0])
      else if env.threadOk = false then (false, [])
      else (true, [])

/-- Outcomes of the external calls made by gst_srt_client_src_start. -/
structure ClientStartEnv where
  hostOk : Bool
  sockAddrOk : Bool
  socketOk : Bool
  epollOk : Bool
  family : SocketFamily
  connectOk : Bool
deriving DecidableEq

/-- gst_srt_client_src_start (gstsrtclientsrc.c:242-333), reduced to its return
value and cleanup events.  As in the server, the srt_epoll_create failure
branch (lines 282-290) closes the socket but leaves ret TRUE. -/
def gst_srt_client_src_start (env : ClientStartEnv) : Bool × List Ev :=
  if env.hostOk = false then (false, [])
  else if env.sockAddrOk = false then (false, [])
  else if env.socketOk = false then (false, [])
  else if env.epollOk = false then (true, [Ev.closeSock 0])
  else
    match env.family with
    | SocketFamily.other => (false, [Ev.closeSock 0])
    | _ =>
      if env.connectOk = false then (false, [Ev.closeSock 0])
      else (true, [])

/-- gst_srt_server_sink_stop (gstsrtserversink.c:446-477): emits client-removed
for every entry of the clients list (g_list_foreach), unrefs each
(g_list_free_full, which frees the list but does NOT reset the priv field, so
the field keeps its old value), releases the epoll id, closes the listening
socket, then quits/joins/clears loop and thread, destroys/clears the server
source and clears the context.  Returns TRUE unconditionally. -/
def gst_srt_server_sink_stop (st : ServerState) : ServerState × List Ev × Bool :=
  let clientEvs := st.clients.map Ev.clientRemoved ++ st.clients.map Ev.unrefClient
  let sockEvs := [Ev.epollRelease st.srt_poll_id, Ev.closeSock st.sock]
  let loopEvs := if st.loopPresent then [Ev.loopQuit, Ev.threadJoin] else []
  let srcEvs := if st.serverSourcePresent then [Ev.sourceDestroy] else []
  let ctxEvs := if st.contextPresent then [Ev.contextUnref] else []
  ({ st with loopPresent := false, threadPresent := false,
             serverSourcePresent := false, contextPresent := false },
   clientEvs ++ sockEvs ++ loopEvs ++ srcEvs ++ ctxEvs, true)

/-- The fields of GstSrtClientSrcPrivate used by stop. -/
structure ClientState where
  srt_sock : Int
  srt_poll_id : Int
deriving DecidableEq

/-- gst_srt_client_src_stop (gstsrtclientsrc.c:335-348): unconditionally
removes the socket from the poll, releases the poll, closes the socket and
returns TRUE; no field is reset. -/
def gst_srt_client_src_stop (st : ClientState) : ClientState × List Ev × Bool :=
  (st, [Ev.epollRelease st.srt_poll_id, Ev.closeSock st.srt_sock], true)

/-- Result of srt_recvmsg: SRT_ERROR, or a non-negative byte count. -/
inductive RecvResult where
  | err
  | bytes (n : Nat)
deriving DecidableEq

/-- Outcomes of the external calls made by gst_srt_client_src_fill, plus the
pipeline clock reading and the element base time (GstClockTime, 64-bit). -/
structure FillEnv where
  epollOk : Bool
  mapOk : Bool
  recv : RecvResult
  clockTime : Nat
  baseTime : Nat
deriving DecidableEq

/-- The output buffer as fill observes it: its size and its presentation
timestamp. -/
structure OutBuf where
  size : Nat
  pts : Option Nat
deriving DecidableEq

/-- gst_srt_client_src_fill (gstsrtclientsrc.c:185-240): a failed
srt_epoll_wait or gst_buffer_map yields GST_FLOW_ERROR; srt_recvmsg returning
SRT_ERROR yields GST_FLOW_ERROR; zero bytes yields GST_FLOW_EOS; a positive
count stamps PTS with gst_clock_get_time minus base_time (unsigned 64-bit
subtraction) and resizes the buffer to the received length. -/
def gst_srt_client_src_fill (env : FillEnv) (outbuf : OutBuf) :
    GstFlowReturn × OutBuf :=
  if env.epollOk = false then (GstFlowReturn.error, outbuf)
  else if env.mapOk = false then (GstFlowReturn.error, outbuf)
  else
    match env.recv with
    | RecvResult.err => (GstFlowReturn.error, outbuf)
    | RecvResult.bytes 0 => (GstFlowReturn.eos, outbuf)
    | RecvResult.bytes (n + 1) =>
        (GstFlowReturn.ok,
         { outbuf with
             pts := some ((env.clockTime + (2 ^ 64 - env.baseTime % 2 ^ 64)) % 2 ^ 64),
             size := n + 1 })

/-- GstSRTClient (gstsrt.h:28-34): socket, peer address (by id), refcount. -/
structure GstSRTClient where
  sock : Int
  addr : Nat
  ref_count : Nat
deriving DecidableEq

/-- Transport events of the session lifecycle: only srt_close is observable. -/
inductive ClientEv where
  | closeSock (sock : Int)
deriving DecidableEq

/-- gst_srt_client_new (gstsrt.c:30-42): NULL if sock is -1 or addr is NULL;
otherwise a fresh session with ref_count 1. -/
def gst_srt_client_new (sock : Int) (addr : Option Nat) : Option GstSRTClient :=
  match addr with
  | none => none
  | some a => if sock = -1 then none else some { sock := sock, addr := a, ref_count := 1 }

/-- gst_srt_client_ref (gstsrt.c:44-51): increments the refcount. -/
def gst_srt_client_ref (c : GstSRTClient) : GstSRTClient :=
  { c with ref_count := c.ref_count + 1 }

/-- gst_srt_client_unref (gstsrt.c:53-66): decrements the refcount; if it is
still positive nothing else happens; otherwise the address is released, the
socket is closed and the struct is freed (modelled as none). -/
def gst_srt_client_unref (c : GstSRTClient) : Option GstSRTClient × List ClientEv :=
  let rc := c.ref_count - 1
  if 0 < rc then (some { c with ref_count := rc }, [])
  else (none, [ClientEv.closeSock c.sock])

/-- A ref or unref call on a session. -/
inductive ClientOp where
  | ref
  | unref
deriving DecidableEq

/-- One ref/unref call on a live session. -/
def clientStep (c : GstSRTClient) : ClientOp → Option GstSRTClient × List ClientEv
  | ClientOp.ref => (some (gst_srt_client_ref c), [])
  | ClientOp.unref => gst_srt_client_unref c

/-- Run a sequence of ref/unref calls from a session state, collecting the
close events.  Calls on a freed session are modelled as no-ops; validity of
the call sequence is tracked separately by validClientOps. -/
def runClientOps : Option GstSRTClient → List ClientOp → Option GstSRTClient × List ClientEv
  | st, [] => (st, [])
  | none, _ :: _ => (none, [])
  | some c, op :: rest =>
    let r := clientStep c op
    let r2 := runClientOps r.1 rest
    (r2.1, r.2 ++ r2.2)

/-- A call sequence is valid when no call is made on an already-freed
session. -/
def validClientOps : Option GstSRTClient → List ClientOp → Bool
  | _, [] => true
  | none, _ :: _ => false
  | some c, op :: rest => validClientOps (clientStep c op).1 rest

/-- A parsed GstUri: scheme, host, port.  gst_uri_from_string returning NULL
(unparseable input) is modelled as none at the call sites. -/
structure GstUri where
  scheme : String
  host : Option String
  port : Option Nat
deriving DecidableEq

/-- gst_srt_server_sink_uri_set_uri (gstsrtserversink.c:585-613): if the
parsed scheme differs from "srt" (including a NULL parse, for which
gst_uri_get_scheme yields NULL), a GST_URI_ERROR_BAD_URI error is set, FALSE
is returned and the stored URI is untouched; otherwise the stored URI is
replaced and TRUE is returned.  Result: (return value, stored URI after the
call, whether a bad-URI error was set). -/
def gst_srt_server_sink_uri_set_uri (stored : Option GstUri) (parsed : Option GstUri) :
    Bool × Option GstUri × Bool :=
  match parsed with
  | none => (false, stored, true)
  | some u =>
    if u.scheme = "srt" then (true, some u, false)
    else (false, stored, true)

/-- gst_srt_client_src_uri_set_uri (gstsrtclientsrc.c:433-461): identical
logic to the server sink's setter. -/
def gst_srt_client_src_uri_set_uri (stored : Option GstUri) (parsed : Option GstUri) :
    Bool × Option GstUri × Bool :=
  match parsed with
  | none => (false, stored, true)
  | some u =>
    if u.scheme = "srt" then (true, some u, false)
    else (false, stored, true)

/-- gst_srt_server_sink_uri_get_uri (gstsrtserversink.c:571-583): returns the
stored URI. -/
def gst_srt_server_sink_uri_get_uri (stored : Option GstUri) : Option GstUri :=
  stored

/-- gst_srt_client_src_uri_get_uri (gstsrtclientsrc.c:419-431): returns the
stored URI. -/
def gst_srt_client_src_uri_get_uri (stored : Option GstUri) : Option GstUri :=
  stored

/-- True for the events that model a network write (srt_sendmsg2). -/
def isSend : Ev → Bool
  | Ev.sendmsg _ _ _ => true
  | _ => false

/-- True for every event except taking or releasing the mutex. -/
def noLockEv : Ev → Bool
  | Ev.lock => false
  | Ev.unlock => false
  | _ => true

/-- The network writes of a trace that happen while the mutex is held, given a
starting lock depth. -/
def sendsWhileLocked : List Ev → Nat → List Ev
  | [], _ => []
  | Ev.lock :: rest, d => sendsWhileLocked rest (d + 1)
  | Ev.unlock :: rest, d => sendsWhileLocked rest (d - 1)
  | e :: rest, d =>
      if isSend e && decide (0 < d) then e :: sendsWhileLocked rest d
      else sendsWhileLocked rest d

/-- Claim C1, counterexample: with the queue already holding buffer 1 (a
dispatch task outstanding), submitting buffer 2 does NOT append it — the queue
is unchanged and buffer 2 is dropped, contradicting the claim that the buffer
is appended and processed by the outstanding task. -/
theorem c1_counterexample :
    (gst_srt_server_sink_render ⟨1, 1, [], [1], false, false, false, false⟩ 2).1.queued_buffers
      = [1]
    ∧ 2 ∉ (gst_srt_server_sink_render
        ⟨1, 1, [], [1], false, false, false, false⟩ 2).1.queued_buffers := by
  constructor
  · rfl
  · decide

/-- Claim C1 (amended): if the pending queue is empty at submit, the buffer is
appended and exactly one dispatch task is scheduled; if the queue is already
non-empty, submit returns GST_FLOW_OK without appending the buffer and without
scheduling a second task — the buffer is dropped. -/
theorem c1_render_amended (st : ServerState) (b : Nat) :
    (st.queued_buffers ≠ [] →
      gst_srt_server_sink_render st b = (st, [Ev.lock, Ev.unlock], GstFlowReturn.ok))
    ∧ (st.queued_buffers = [] →
      gst_srt_server_sink_render st b =
        ({ st with queued_buffers := [b] },
         [Ev.lock, Ev.scheduleDispatch, Ev.unlock], GstFlowReturn.ok)) := by
  constructor
  · intro h
    simp [gst_srt_server_sink_render, h]
  · intro h
    simp [gst_srt_server_sink_render, h]

/-- Claim C1 witness: the amended theorem applied at a concrete non-empty
queue and at a concrete empty queue. -/
theorem c1_render_amended_witness :
    gst_srt_server_sink_render ⟨1, 1, [], [7], false, false, false, false⟩ 9 =
      (⟨1, 1, [], [7], false, false, false, false⟩, [Ev.lock, Ev.unlock], GstFlowReturn.ok)
    ∧ gst_srt_server_sink_render ⟨1, 1, [], [], false, false, false, false⟩ 9 =
      (⟨1, 1, [], [9], false, false, false, false⟩,
       [Ev.lock, Ev.scheduleDispatch, Ev.unlock], GstFlowReturn.ok) :=
  ⟨(c1_render_amended ⟨1, 1, [], [7], false, false, false, false⟩ 9).1 (by decide),
   (c1_render_amended ⟨1, 1, [], [], false, false, false, false⟩ 9).2 rfl⟩

/-- Claim C2, counterexample: on a failed accept the callback returns FALSE
(the GSourceFunc value that removes the idle source), so the accept unit is
not re-armed, contradicting the claim that the loop continues accepting. -/
theorem c2_counterexample :
    (idle_listen_callback AcceptOutcome.acceptFail
      ⟨1, 1, [], [], true, true, true, true⟩).2.2 ≠ true := by
  decide

/-- Claim C2 (amended): whenever the accept call fails, the failure is logged
but the callback returns FALSE, which removes the idle accept source: a single
failed accept terminates the server's accept loop (no further peers are
accepted).  Only the timeout outcome and a successful accept re-arm the unit
by returning TRUE. -/
theorem c2_accept_fail_amended (st : ServerState) :
    idle_listen_callback AcceptOutcome.acceptFail st = (st, [Ev.logWarning], false)
    ∧ idle_listen_callback AcceptOutcome.epollTimeout st = (st, [], true)
    ∧ (∀ s, idle_listen_callback (AcceptOutcome.acceptOk s) st =
        ({ st with clients := st.clients ++ [s] }, [Ev.clientAdded s], true)) := by
  exact ⟨rfl, rfl, fun s => rfl⟩

/-- Claim C5: when srt_epoll_create fails (all earlier steps succeeding), both
start functions close the socket but return TRUE, because the failure branch
never sets ret to FALSE — evaluating the embedded code at the failing input. -/
theorem c5_epoll_failure_start_returns_true :
    (gst_srt_server_sink_start
      ⟨true, true, true, false, SocketFamily.ipv4, true, true, true⟩).1 = true
    ∧ (gst_srt_client_src_start
      ⟨true, true, true, false, SocketFamily.ipv4, true⟩).1 = true := by
  decide

/-- Claim C6, counterexample: stopping an already-stopped server (and client)
closes the same transport handle a second time — the second stop's trace again
contains the close of socket 5 (server) and socket 7 (client), contradicting
idempotence. -/
theorem c6_counterexample :
    Ev.closeSock 5 ∈
      (gst_srt_server_sink_stop
        (gst_srt_server_sink_stop ⟨5, 3, [], [], true, true, true, true⟩).1).2.1
    ∧ Ev.closeSock 7 ∈
      (gst_srt_client_src_stop (gst_srt_client_src_stop ⟨7, 2⟩).1).2.1 := by
  decide

/-- Claim C6 (amended): stop always returns TRUE, and a second stop skips the
loop-quit, thread-join, source-destroy and context-release steps (those
pointers were cleared by the first stop), but it closes the listening transport
handle again, re-releases the poll id, and — because the clients field is not
reset — re-emits client-removed and re-releases the session reference for every
previously removed session; the client's stop likewise closes its socket again.
Stop is not idempotent with respect to transport handles and session
references. -/
theorem c6_stop_amended (st : ServerState) (cst : ClientState) :
    (gst_srt_server_sink_stop (gst_srt_server_sink_stop st).1).2.2 = true
    ∧ Ev.closeSock st.sock ∈
        (gst_srt_server_sink_stop (gst_srt_server_sink_stop st).1).2.1
    ∧ (∀ c ∈ st.clients, Ev.clientRemoved c ∈
        (gst_srt_server_sink_stop (gst_srt_server_sink_stop st).1).2.1)
    ∧ Ev.loopQuit ∉ (gst_srt_server_sink_stop (gst_srt_server_sink_stop st).1).2.1
    ∧ Ev.threadJoin ∉ (gst_srt_server_sink_stop (gst_srt_server_sink_stop st).1).2.1
    ∧ Ev.sourceDestroy ∉ (gst_srt_server_sink_stop (gst_srt_server_sink_stop st).1).2.1
    ∧ Ev.contextUnref ∉ (gst_srt_server_sink_stop (gst_srt_server_sink_stop st).1).2.1
    ∧ Ev.closeSock cst.srt_sock ∈
        (gst_srt_client_src_stop (gst_srt_client_src_stop cst).1).2.1 := by
  refine ⟨rfl, ?_, ?_, ?_, ?_, ?_, ?_, ?_⟩
  · simp [gst_srt_server_sink_stop]
  · intro c hc
    exact List.mem_append_left _ (List.mem_append_left _ (List.mem_append_left _
      (List.mem_append_left _ (List.mem_append_left _ (List.mem_map_of_mem _ hc)))))
  · simp [gst_srt_server_sink_stop]
  · simp [gst_srt_server_sink_stop]
  · simp [gst_srt_server_sink_stop]
  · simp [gst_srt_server_sink_stop]
  · simp [gst_srt_client_src_stop]

/-- Claim C7: in the client's fill operation a readiness-wait failure yields
GST_FLOW_ERROR; with a successful wait and map, a receive error yields
GST_FLOW_ERROR, a zero-byte receive yields GST_FLOW_EOS (not an error), and a
positive receive yields GST_FLOW_OK. -/
theorem c7_fill_flow_status (env : FillEnv) (outbuf : OutBuf) :
    (env.epollOk = false →
      (gst_srt_client_src_fill env outbuf).1 = GstFlowReturn.error)
    ∧ (env.epollOk = true → env.mapOk = true → env.recv = RecvResult.err →
      (gst_srt_client_src_fill env outbuf).1 = GstFlowReturn.error)
    ∧ (env.epollOk = true → env.mapOk = true → env.recv = RecvResult.bytes 0 →
      (gst_srt_client_src_fill env outbuf).1 = GstFlowReturn.eos)
    ∧ (∀ n, env.epollOk = true → env.mapOk = true →
        env.recv = RecvResult.bytes (n + 1) →
      (gst_srt_client_src_fill env outbuf).1 = GstFlowReturn.ok) := by
  refine ⟨?_, ?_, ?_, ?_⟩
  · intro h
    simp [gst_srt_client_src_fill, h]
  · intro he hm hr
    simp [gst_srt_client_src_fill, he, hm, hr]
  · intro he hm hr
    simp [gst_srt_client_src_fill, he, hm, hr]
  · intro n he hm hr
    simp [gst_srt_client_src_fill, he, hm, hr]

/-- Claim C7 witness: the flow-status theorem applied at concrete inputs for
each of the four outcomes. -/
theorem c7_fill_flow_status_witness :
    (gst_srt_client_src_fill ⟨false, true, RecvResult.bytes 3, 0, 0⟩ ⟨10, none⟩).1
      = GstFlowReturn.error
    ∧ (gst_srt_client_src_fill ⟨true, true, RecvResult.err, 0, 0⟩ ⟨10, none⟩).1
      = GstFlowReturn.error
    ∧ (gst_srt_client_src_fill ⟨true, true, RecvResult.bytes 0, 0, 0⟩ ⟨10, none⟩).1
      = GstFlowReturn.eos
    ∧ (gst_srt_client_src_fill ⟨true, true, RecvResult.bytes 3, 0, 0⟩ ⟨10, none⟩).1
      = GstFlowReturn.ok :=
  ⟨(c7_fill_flow_status ⟨false, true, RecvResult.bytes 3, 0, 0⟩ ⟨10, none⟩).1 rfl,
   (c7_fill_flow_status ⟨true, true, RecvResult.err, 0, 0⟩ ⟨10, none⟩).2.1 rfl rfl rfl,
   (c7_fill_flow_status ⟨true, true, RecvResult.bytes 0, 0, 0⟩ ⟨10, none⟩).2.2.1 rfl rfl rfl,
   (c7_fill_flow_status ⟨true, true, RecvResult.bytes 3, 0, 0⟩ ⟨10, none⟩).2.2.2 2 rfl rfl rfl⟩

/-- Claim C8, counterexample: with the pipeline clock reading 100 and the
element base time 30, a successful 5-byte receive stamps PTS 70 (clock minus
base time), not the current pipeline clock time 100 that the claim states. -/
theorem c8_counterexample :
    (gst_srt_client_src_fill ⟨true, true, RecvResult.bytes 5, 100, 30⟩ ⟨10, none⟩).2.pts
      ≠ some 100
    ∧ (gst_srt_client_src_fill ⟨true, true, RecvResult.bytes 5, 100, 30⟩ ⟨10, none⟩).2.pts
      = some 70 := by
  constructor
  · decide
  · decide

/-- Claim C8 (amended): on every successful receive of n greater than zero
bytes, fill stamps the buffer's presentation timestamp with the current
pipeline clock time minus the element's base time (the running time, computed
in unsigned 64-bit arithmetic) and resizes the buffer to exactly n bytes, with
no padding beyond the received length. -/
theorem c8_fill_stamp_amended (env : FillEnv) (outbuf : OutBuf) (n : Nat)
    (hr : env.recv = RecvResult.bytes n) (hn : 0 < n)
    (he : env.epollOk = true) (hm : env.mapOk = true)
    (hb : env.baseTime ≤ env.clockTime) (hc : env.clockTime < 2 ^ 64) :
    (gst_srt_client_src_fill env outbuf).2.pts
      = some (env.clockTime - env.baseTime)
    ∧ (gst_srt_client_src_fill env outbuf).2.size = n := by
  obtain ⟨m, rfl⟩ : ∃ m, n = m + 1 := ⟨n - 1, by omega⟩
  have hc2 : env.clockTime < 18446744073709551616 := by
    norm_num at hc
    exact hc
  constructor
  · simp [gst_srt_client_src_fill, he, hm, hr]
    omega
  · simp [gst_srt_client_src_fill, he, hm, hr]

/-- Claim C8 witness: the amended theorem applied at clock 100, base 30 and a
5-byte receive into a 10-byte buffer. -/
theorem c8_fill_stamp_amended_witness :
    (gst_srt_client_src_fill ⟨true, true, RecvResult.bytes 5, 100, 30⟩ ⟨10, none⟩).2.pts
      = some 70
    ∧ (gst_srt_client_src_fill ⟨true, true, RecvResult.bytes 5, 100, 30⟩ ⟨10, none⟩).2.size
      = 5 :=
  c8_fill_stamp_amended ⟨true, true, RecvResult.bytes 5, 100, 30⟩ ⟨10, none⟩ 5
    rfl (by decide) rfl rfl (by decide) (by norm_num)

/-- Auxiliary for C9: over any valid ref/unref sequence on a live session, the
emitted events are all closes of the session's own socket, and there is
exactly one of them when the run ends with the session freed and none
otherwise. -/
lemma runClientOps_close_spec (ops : List ClientOp) :
    ∀ c : GstSRTClient, validClientOps (some c) ops = true →
      ((runClientOps (some c) ops).2.length =
        if (runClientOps (some c) ops).1 = none then 1 else 0)
      ∧ ∀ e ∈ (runClientOps (some c) ops).2, e = ClientEv.closeSock c.sock := by
  induction ops with
  | nil =>
    intro c hv
    exact ⟨by simp [runClientOps], by simp [runClientOps]⟩
  | cons op rest ih =>
    intro c hv
    cases op with
    | ref =>
      have hv2 : validClientOps (some (gst_srt_client_ref c)) rest = true := by
        simpa [validClientOps, clientStep] using hv
      have h := ih (gst_srt_client_ref c) hv2
      constructor
      · simpa [runClientOps, clientStep] using h.1
      · intro e he
        simp [runClientOps, clientStep] at he
        exact h.2 e he
    | unref =>
      by_cases hrc : 0 < c.ref_count - 1
      · have hv2 : validClientOps
            (some { c with ref_count := c.ref_count - 1 }) rest = true := by
          simpa [validClientOps, clientStep, gst_srt_client_unref, hrc] using hv
        have h := ih { c with ref_count := c.ref_count - 1 } hv2
        constructor
        · simpa [runClientOps, clientStep, gst_srt_client_unref, hrc] using h.1
        · intro e he
          simp [runClientOps, clientStep, gst_srt_client_unref, hrc] at he
          exact h.2 e he
      · cases rest with
        | nil =>
          constructor
          · simp [runClientOps, clientStep, gst_srt_client_unref, hrc]
          · intro e he
            simp [runClientOps, clientStep, gst_srt_client_unref, hrc] at he
            exact he
        | cons op2 rs =>
          exfalso
          simp [validClientOps, clientStep, gst_srt_client_unref, hrc] at hv

/-- Claim C9: gst_srt_client_new yields reference count 1; an unref on a
session whose count is at least 2 only decrements the count by one and closes
nothing; an unref on a session whose count is 1 frees it and closes its socket
exactly then; and over any valid sequence of ref/unref calls the socket is
closed exactly once if the session is freed by the sequence and never
otherwise, each close naming the session's own socket. -/
theorem c9_session_refcount :
    (∀ (sock : Int) (a : Nat) (c : GstSRTClient),
        gst_srt_client_new sock (some a) = some c → c.ref_count = 1)
    ∧ (∀ c : GstSRTClient, 2 ≤ c.ref_count →
        gst_srt_client_unref c = (some { c with ref_count := c.ref_count - 1 }, []))
    ∧ (∀ c : GstSRTClient, c.ref_count = 1 →
        gst_srt_client_unref c = (none, [ClientEv.closeSock c.sock]))
    ∧ (∀ (c : GstSRTClient) (ops : List ClientOp),
        validClientOps (some c) ops = true →
          ((runClientOps (some c) ops).2.length =
            if (runClientOps (some c) ops).1 = none then 1 else 0)
          ∧ ∀ e ∈ (runClientOps (some c) ops).2, e = ClientEv.closeSock c.sock) := by
  refine ⟨?_, ?_, ?_, ?_⟩
  · intro sock a c h
    by_cases hs : sock = -1
    · simp [gst_srt_client_new, hs] at h
    · simp [gst_srt_client_new, hs] at h
      cases h
      rfl
  · intro c h2
    have hpos : 0 < c.ref_count - 1 := by omega
    simp [gst_srt_client_unref, hpos]
  · intro c h1
    have hz : ¬ 0 < c.ref_count - 1 := by omega
    simp [gst_srt_client_unref, hz]
  · exact fun c ops hv => runClientOps_close_spec ops c hv

/-- Claim C9 witness: the refcount theorem applied at a session with socket 3,
address 7: creation gives count 1, unref at count 2 decrements without a
close, unref at count 1 closes socket 3, and the valid sequence
ref, unref, unref from count 1 produces exactly one close. -/
theorem c9_session_refcount_witness :
    ((⟨3, 7, 1⟩ : GstSRTClient).ref_count = 1)
    ∧ gst_srt_client_unref ⟨3, 7, 2⟩ = (some ⟨3, 7, 1⟩, [])
    ∧ gst_srt_client_unref ⟨3, 7, 1⟩ = (none, [ClientEv.closeSock 3])
    ∧ (runClientOps (some ⟨3, 7, 1⟩)
        [ClientOp.ref, ClientOp.unref, ClientOp.unref]).2.length = 1 :=
  ⟨c9_session_refcount.1 3 7 ⟨3, 7, 1⟩ rfl,
   c9_session_refcount.2.1 ⟨3, 7, 2⟩ (by decide),
   c9_session_refcount.2.2.1 ⟨3, 7, 1⟩ rfl,
   ((c9_session_refcount.2.2.2 ⟨3, 7, 1⟩
      [ClientOp.ref, ClientOp.unref, ClientOp.unref] (by decide)).1).trans (by decide)⟩

/-- Claim C10: for both URI handlers, a set_uri call whose parse result has a
scheme other than "srt" — including an unparseable string, whose parse result
is NULL — returns FALSE, sets a bad-URI error, and leaves the stored URI
unchanged, so a subsequent get_uri returns the prior URI. -/
theorem c10_set_uri_bad_scheme (stored parsed : Option GstUri)
    (h : ∀ u, parsed = some u → u.scheme ≠ "srt") :
    gst_srt_server_sink_uri_set_uri stored parsed = (false, stored, true)
    ∧ gst_srt_client_src_uri_set_uri stored parsed = (false, stored, true)
    ∧ gst_srt_server_sink_uri_get_uri
        (gst_srt_server_sink_uri_set_uri stored parsed).2.1
      = gst_srt_server_sink_uri_get_uri stored
    ∧ gst_srt_client_src_uri_get_uri
        (gst_srt_client_src_uri_set_uri stored parsed).2.1
      = gst_srt_client_src_uri_get_uri stored := by
  have hs : gst_srt_server_sink_uri_set_uri stored parsed = (false, stored, true) := by
    cases parsed with
    | none => rfl
    | some u =>
      have hu := h u rfl
      simp [gst_srt_server_sink_uri_set_uri, hu]
  have hc : gst_srt_client_src_uri_set_uri stored parsed = (false, stored, true) := by
    cases parsed with
    | none => rfl
    | some u =>
      have hu := h u rfl
      simp [gst_srt_client_src_uri_set_uri, hu]
  exact ⟨hs, hc, by rw [hs], by rw [hc]⟩

/-- Claim C10 witness: the theorem applied at a stored srt URI with an
http-scheme parse (server) and an unparseable input (client). -/
theorem c10_set_uri_bad_scheme_witness :
    gst_srt_server_sink_uri_set_uri (some ⟨"srt", some "h", some 7001⟩)
        (some ⟨"http", some "h", some 80⟩)
      = (false, some ⟨"srt", some "h", some 7001⟩, true)
    ∧ gst_srt_client_src_uri_set_uri (some ⟨"srt", some "h", some 7001⟩) none
      = (false, some ⟨"srt", some "h", some 7001⟩, true) :=
  ⟨(c10_set_uri_bad_scheme (some ⟨"srt", some "h", some 7001⟩)
      (some ⟨"http", some "h", some 80⟩)
      (fun u hu => by
        injection hu with h2
        subst h2
        decide)).1,
   (c10_set_uri_bad_scheme (some ⟨"srt", some "h", some 7001⟩) none
      (fun u hu => nomatch hu)).2.1⟩

/-- Auxiliary: the inner send loop emits no lock or unlock events. -/
lemma sendToClients_noLock (sendOk : Nat → Nat → Bool) (b : Nat) :
    ∀ (cursor registry : List Nat) (e : Ev),
      e ∈ (sendToClients sendOk b cursor registry).2 → noLockEv e = true := by
  intro cursor
  induction cursor with
  | nil =>
    intro registry e he
    simp [sendToClients] at he
  | cons c rest ih =>
    intro registry e he
    by_cases hc : sendOk c b = true
    · have heq : (sendToClients sendOk b (c :: rest) registry).2
          = Ev.sendmsg c b true :: (sendToClients sendOk b rest registry).2 := by
        simp [sendToClients, hc]
      rw [heq] at he
      rcases List.mem_cons.mp he with h | h
      · simp [h, noLockEv]
      · exact ih registry e h
    · have heq : (sendToClients sendOk b (c :: rest) registry).2
          = Ev.sendmsg c b false :: Ev.clientRemoved c :: Ev.unrefClient c
            :: (sendToClients sendOk b rest (registry.erase c)).2 := by
        simp [sendToClients, hc]
      rw [heq] at he
      rcases List.mem_cons.mp he with h | h
      · simp [h, noLockEv]
      rcases List.mem_cons.mp h with h2 | h2
      · simp [h2, noLockEv]
      rcases List.mem_cons.mp h2 with h3 | h3
      · simp [h3, noLockEv]
      · exact ih (registry.erase c) e h3

/-- Auxiliary: the dispatch body (the loop over queued buffers) emits no lock
or unlock events. -/
lemma sendQueuedBuffers_noLock (mapOk : Nat → Bool) (sendOk : Nat → Nat → Bool) :
    ∀ (bs cursor registry : List Nat) (e : Ev),
      e ∈ (sendQueuedBuffers mapOk sendOk bs cursor registry).2 →
        noLockEv e = true := by
  intro bs
  induction bs with
  | nil =>
    intro cursor registry e he
    simp [sendQueuedBuffers] at he
  | cons b rest ih =>
    intro cursor registry e he
    by_cases hb : mapOk b = true
    · have heq : (sendQueuedBuffers mapOk sendOk (b :: rest) cursor registry).2
          = (sendToClients sendOk b cursor registry).2
            ++ (sendQueuedBuffers mapOk sendOk rest []
                 (sendToClients sendOk b cursor registry).1).2 := by
        simp [sendQueuedBuffers, hb]
      rw [heq] at he
      rcases List.mem_append.mp he with h | h
      · exact sendToClients_noLock sendOk b cursor registry e h
      · exact ih [] _ e h
    · have heq : (sendQueuedBuffers mapOk sendOk (b :: rest) cursor registry).2
          = Ev.mapError b :: (sendQueuedBuffers mapOk sendOk rest cursor registry).2 := by
        simp [sendQueuedBuffers, hb]
      rw [heq] at he
      rcases List.mem_cons.mp he with h | h
      · simp [h, noLockEv]
      · exact ih cursor registry e h

/-- Auxiliary: sendsWhileLocked steps over an event that is not a lock
operation, keeping it exactly when it is a send and the depth is positive. -/
lemma sendsWhileLocked_cons_noLock (e : Ev) (rest : List Ev) (d : Nat)
    (h : noLockEv e = true) :
    sendsWhileLocked (e :: rest) d =
      (if isSend e && decide (0 < d) then [e] else []) ++ sendsWhileLocked rest d := by
  cases e <;> simp_all [sendsWhileLocked, noLockEv, isSend]
  split <;> simp_all

/-- Auxiliary: over a run of events containing no lock operations, at positive
depth, sendsWhileLocked keeps exactly the send events. -/
lemma sendsWhileLocked_append (t : List Ev) (d : Nat) (hd : 0 < d) :
    ∀ evs : List Ev, (∀ e ∈ evs, noLockEv e = true) →
      sendsWhileLocked (evs ++ t) d = evs.filter isSend ++ sendsWhileLocked t d := by
  intro evs
  induction evs with
  | nil => intro h; simp
  | cons e rest ih =>
    intro h
    have he : noLockEv e = true := h e (List.mem_cons_self e rest)
    have hrest := ih (fun x hx => h x (List.mem_cons_of_mem e hx))
    have hd2 : decide (0 < d) = true := by simpa using hd
    rw [List.cons_append, sendsWhileLocked_cons_noLock e (rest ++ t) d he, hrest]
    by_cases hs : isSend e = true
    · simp [hs, hd2, List.filter_cons]
    · simp [hs, List.filter_cons]

/-- Claim C3, counterexample: with one registered client and one queued
buffer, the dispatch pass performs its network write while the queue lock is
held (the locked-send list is non-empty), contradicting the claim that the
lock is released before any write. -/
theorem c3_counterexample :
    sendsWhileLocked (srt_send_buffer (fun _ => true) (fun _ _ => true)
      ⟨1, 1, [1], [10], false, false, false, false⟩).2.1 0 ≠ [] := by
  decide

/-- Claim C3 (amended): submit performs no network I/O at all (so none under
its lock), but dispatch does not swap the queue and drop the lock first — it
acquires the queue lock before processing and releases it only after every
session write and the queue clear, so every network write of a dispatch pass
occurs while the queue lock is held, and a slow peer send can block the
producer's submit on that lock. -/
theorem c3_lock_discipline_amended (mapOk : Nat → Bool) (sendOk : Nat → Nat → Bool)
    (st : ServerState) (b : Nat) :
    (gst_srt_server_sink_render st b).2.1.filter isSend = []
    ∧ sendsWhileLocked (srt_send_buffer mapOk sendOk st).2.1 0 =
        (srt_send_buffer mapOk sendOk st).2.1.filter isSend := by
  constructor
  · by_cases h : st.queued_buffers = []
    · simp [gst_srt_server_sink_render, h, isSend]
    · simp [gst_srt_server_sink_render, h, isSend]
  · have hnl : ∀ e ∈ (sendQueuedBuffers mapOk sendOk st.queued_buffers
        st.clients st.clients).2, noLockEv e = true :=
      fun e he => sendQueuedBuffers_noLock mapOk sendOk st.queued_buffers
        st.clients st.clients e he
    have ht : sendsWhileLocked [Ev.clearQueue, Ev.unlock] 1 = [] := by decide
    have hstep : sendsWhileLocked (srt_send_buffer mapOk sendOk st).2.1 0
        = sendsWhileLocked ((sendQueuedBuffers mapOk sendOk st.queued_buffers
            st.clients st.clients).2 ++ [Ev.clearQueue, Ev.unlock]) 1 := rfl
    rw [hstep, sendsWhileLocked_append [Ev.clearQueue, Ev.unlock] 1 (by decide) _ hnl, ht]
    have hfe : (srt_send_buffer mapOk sendOk st).2.1
        = Ev.lock :: ((sendQueuedBuffers mapOk sendOk st.queued_buffers
            st.clients st.clients).2 ++ [Ev.clearQueue, Ev.unlock]) := rfl
    rw [hfe]
    simp [List.filter_cons, List.filter_append, isSend]

/-- Auxiliary for C4: a client in the cursor whose send succeeds appears as a
successful write event of the inner loop. -/
lemma sendToClients_delivers (sendOk : Nat → Nat → Bool) (b : Nat) :
    ∀ (cursor registry : List Nat) (c : Nat), c ∈ cursor → sendOk c b = true →
      Ev.sendmsg c b true ∈ (sendToClients sendOk b cursor registry).2 := by
  intro cursor
  induction cursor with
  | nil =>
    intro registry c hc
    simp at hc
  | cons x rest ih =>
    intro registry c hc hok
    rcases List.mem_cons.mp hc with h | h
    · subst h
      have heq : (sendToClients sendOk b (c :: rest) registry).2
          = Ev.sendmsg c b true :: (sendToClients sendOk b rest registry).2 := by
        simp [sendToClients, hok]
      rw [heq]
      exact List.mem_cons_self _ _
    · by_cases hx : sendOk x b = true
      · have heq : (sendToClients sendOk b (x :: rest) registry).2
            = Ev.sendmsg x b true :: (sendToClients sendOk b rest registry).2 := by
          simp [sendToClients, hx]
        rw [heq]
        exact List.mem_cons_of_mem _ (ih registry c h hok)
      · have heq : (sendToClients sendOk b (x :: rest) registry).2
            = Ev.sendmsg x b false :: Ev.clientRemoved x :: Ev.unrefClient x
              :: (sendToClients sendOk b rest (registry.erase x)).2 := by
          simp [sendToClients, hx]
        rw [heq]
        exact List.mem_cons_of_mem _ (List.mem_cons_of_mem _
          (List.mem_cons_of_mem _ (ih (registry.erase x) c h hok)))

/-- Auxiliary for C4: when every send in the cursor succeeds, the registry is
unchanged by the inner loop. -/
lemma sendToClients_registry_all_ok (sendOk : Nat → Nat → Bool) (b : Nat) :
    ∀ (cursor registry : List Nat), (∀ c ∈ cursor, sendOk c b = true) →
      (sendToClients sendOk b cursor registry).1 = registry := by
  intro cursor
  induction cursor with
  | nil =>
    intro registry h
    rfl
  | cons x rest ih =>
    intro registry h
    have hx : sendOk x b = true := h x (List.mem_cons_self x rest)
    have heq : (sendToClients sendOk b (x :: rest) registry).1
        = (sendToClients sendOk b rest registry).1 := by
      simp [sendToClients, hx]
    rw [heq]
    exact ih registry (fun c hc => h c (List.mem_cons_of_mem x hc))

/-- Auxiliary for C4: when exactly the sends to K fail, the inner loop over a
duplicate-free cursor containing K removes exactly K from the registry. -/
lemma sendToClients_registry_erase (sendOk : Nat → Nat → Bool) (b K : Nat) :
    ∀ (cursor registry : List Nat), cursor.Nodup → K ∈ cursor →
      (∀ c, sendOk c b = decide (c ≠ K)) →
      (sendToClients sendOk b cursor registry).1 = registry.erase K := by
  intro cursor
  induction cursor with
  | nil =>
    intro registry hnd hK
    simp at hK
  | cons x rest ih =>
    intro registry hnd hK hs
    by_cases hx : x = K
    · subst hx
      have hfail : sendOk x b = false := by simp [hs x]
      have hnotmem : x ∉ rest := (List.nodup_cons.mp hnd).1
      have heq : (sendToClients sendOk b (x :: rest) registry).1
          = (sendToClients sendOk b rest (registry.erase x)).1 := by
        simp [sendToClients, hfail]
      rw [heq]
      exact sendToClients_registry_all_ok sendOk b rest (registry.erase x)
        (fun c hc => by
          have hck : c ≠ x := fun h2 => hnotmem (h2 ▸ hc)
          simp [hs c, hck])
    · have hxs : sendOk x b = true := by simp [hs x, hx]
      have hKrest : K ∈ rest := by
        rcases List.mem_cons.mp hK with h | h
        · exact absurd h.symm hx
        · exact h
      have heq : (sendToClients sendOk b (x :: rest) registry).1
          = (sendToClients sendOk b rest registry).1 := by
        simp [sendToClients, hxs]
      rw [heq]
      exact ih registry (List.nodup_cons.mp hnd).2 hKrest hs

/-- Auxiliary for C4: the inner loop emits one client-removed event for K per
occurrence of K in the cursor, when exactly the sends to K fail. -/
lemma sendToClients_removed_count (sendOk : Nat → Nat → Bool) (b K : Nat) :
    ∀ (cursor registry : List Nat), (∀ c, sendOk c b = decide (c ≠ K)) →
      ((sendToClients sendOk b cursor registry).2.count (Ev.clientRemoved K))
        = cursor.count K := by
  intro cursor
  induction cursor with
  | nil =>
    intro registry hs
    rfl
  | cons x rest ih =>
    intro registry hs
    by_cases hx : x = K
    · subst hx
      have hfail : sendOk x b = false := by simp [hs x]
      have heq : (sendToClients sendOk b (x :: rest) registry).2
          = Ev.sendmsg x b false :: Ev.clientRemoved x :: Ev.unrefClient x
            :: (sendToClients sendOk b rest (registry.erase x)).2 := by
        simp [sendToClients, hfail]
      rw [heq]
      simp [List.count_cons, ih (registry.erase x) hs]
    · have hxs : sendOk x b = true := by simp [hs x, hx]
      have heq : (sendToClients sendOk b (x :: rest) registry).2
          = Ev.sendmsg x b true :: (sendToClients sendOk b rest registry).2 := by
        simp [sendToClients, hxs]
      rw [heq]
      simp [List.count_cons, ih registry hs, hx]

/-- Claim C4: in a dispatch pass over one buffer where the write to session K
of the registered sessions fails and all other writes succeed, every session
other than K receives the buffer (a successful write event for it is in the
trace), K is removed from the registry (the post-state registry is the
original with K erased, and K is absent), exactly one client-removed
notification is emitted for K, and the failure is never surfaced to the
producer (the dispatch callback returns FALSE regardless, and render always
returns GST_FLOW_OK). -/
theorem c4_fault_isolation (st : ServerState) (b K : Nat)
    (mapOk : Nat → Bool) (sendOk : Nat → Nat → Bool)
    (hq : st.queued_buffers = [b]) (hm : mapOk b = true)
    (hK : K ∈ st.clients) (hnd : st.clients.Nodup)
    (hs : ∀ c, sendOk c b = decide (c ≠ K)) :
    (∀ c ∈ st.clients, c ≠ K →
      Ev.sendmsg c b true ∈ (srt_send_buffer mapOk sendOk st).2.1)
    ∧ (srt_send_buffer mapOk sendOk st).1.clients = st.clients.erase K
    ∧ K ∉ (srt_send_buffer mapOk sendOk st).1.clients
    ∧ ((srt_send_buffer mapOk sendOk st).2.1.count (Ev.clientRemoved K)) = 1
    ∧ (srt_send_buffer mapOk sendOk st).2.2 = false
    ∧ (∀ (st2 : ServerState) (b2 : Nat),
        (gst_srt_server_sink_render st2 b2).2.2 = GstFlowReturn.ok) := by
  have hsq : sendQueuedBuffers mapOk sendOk [b] st.clients st.clients
      = ((sendToClients sendOk b st.clients st.clients).1,
         (sendToClients sendOk b st.clients st.clients).2) := by
    simp [sendQueuedBuffers, hm]
  have htr : (srt_send_buffer mapOk sendOk st).2.1
      = Ev.lock :: ((sendToClients sendOk b st.clients st.clients).2
          ++ [Ev.clearQueue, Ev.unlock]) := by
    simp [srt_send_buffer, hq, hsq]
  have hreg : (srt_send_buffer mapOk sendOk st).1.clients
      = (sendToClients sendOk b st.clients st.clients).1 := by
    simp [srt_send_buffer, hq, hsq]
  have herase := sendToClients_registry_erase sendOk b K st.clients st.clients hnd hK hs
  refine ⟨?_, ?_, ?_, ?_, rfl, ?_⟩
  · intro c hc hck
    rw [htr]
    have hok : sendOk c b = true := by simp [hs c, hck]
    exact List.mem_cons_of_mem _ (List.mem_append_left _
      (sendToClients_delivers sendOk b st.clients st.clients c hc hok))
  · rw [hreg, herase]
  · rw [hreg, herase]
    intro hmem
    exact ((List.Nodup.mem_erase_iff hnd).mp hmem).1 rfl
  · have hcount := sendToClients_removed_count sendOk b K st.clients st.clients hs
    rw [htr]
    simp [List.count_cons, List.count_append, hcount]
    exact List.count_eq_one_of_mem hnd hK
  · intro st2 b2
    by_cases h : st2.queued_buffers = [] <;> simp [gst_srt_server_sink_render, h]

/-- Claim C4 witness: the fault-isolation theorem applied at registry
[1, 2, 3], buffer 9, failing session 2: session 1 receives the buffer, the
registry becomes [1, 3], and exactly one client-removed event for 2 is
emitted. -/
theorem c4_fault_isolation_witness :
    Ev.sendmsg 1 9 true ∈ (srt_send_buffer (fun _ => true) (fun c _ => decide (c ≠ 2))
      ⟨1, 1, [1, 2, 3], [9], false, false, false, false⟩).2.1
    ∧ (srt_send_buffer (fun _ => true) (fun c _ => decide (c ≠ 2))
      ⟨1, 1, [1, 2, 3], [9], false, false, false, false⟩).1.clients = [1, 3]
    ∧ ((srt_send_buffer (fun _ => true) (fun c _ => decide (c ≠ 2))
      ⟨1, 1, [1, 2, 3], [9], false, false, false, false⟩).2.1.count
        (Ev.clientRemoved 2)) = 1 := by
  have h := c4_fault_isolation ⟨1, 1, [1, 2, 3], [9], false, false, false, false⟩ 9 2
    (fun _ => true) (fun c _ => decide (c ≠ 2)) rfl rfl (by decide) (by decide)
    (fun c => rfl)
  exact ⟨h.1 1 (by decide) (by decide), (h.2.1).trans (by decide), h.2.2.2.1⟩
